import Mathlib

/-!
Shallow embedding of the D.R.O.S.S chat server (TypeScript sources:
the main Express server and its sqlite-backed persistence module).
Pure functions of the source become Lean functions; the sqlite store
becomes an explicit record of rows; the external Gemini call becomes
an oracle parameter mapping each attempt (and the prompt sent) to an
outcome.  Timestamps from CURRENT_TIMESTAMP are threaded as an
explicit `now : Nat` parameter.
-/

/-- Apostrophe character, used to spell the string literals of the
source without a bare quote character in this file. -/
def apos : String := String.singleton (Char.ofNat 39)

/-- Mood labels, from the union type of the server source. -/
inductive Mood where
  | happy
  | sad
  | stressed
  | excited
  | neutral
deriving DecidableEq, Repr

/-- Mode labels, from the union type of the server source. -/
inductive Mode where
  | friend
  | research
  | code
deriving DecidableEq, Repr

/-- String form of a mood, as it is stored and interpolated. -/
def Mood.str : Mood → String
  | .happy => "happy"
  | .sad => "sad"
  | .stressed => "stressed"
  | .excited => "excited"
  | .neutral => "neutral"

/-- String form of a mode, as it is stored and interpolated. -/
def Mode.str : Mode → String
  | .friend => "friend"
  | .research => "research"
  | .code => "code"

/-- Boolean prefix test on character lists. -/
def isPrefixList : List Char → List Char → Bool
  | [], _ => true
  | _ :: _, [] => false
  | a :: as, b :: bs => a == b && isPrefixList as bs

/-- Boolean contiguous-sublist test on character lists: the regex
alternative tests of the source are substring searches. -/
def isSubList (p : List Char) : List Char → Bool
  | [] => isPrefixList p []
  | b :: bs => isPrefixList p (b :: bs) || isSubList p bs

/-- Lowercasing as the JS toLowerCase call on the keyword alphabet. -/
def toLowerChars (s : String) : List Char := s.data.map Char.toLower

/-- Test whether the keyword occurs in the lowered text. -/
def containsKw (lower : List Char) (kw : String) : Bool :=
  isSubList kw.data lower

/-- Test whether any keyword of the set occurs: one regex alternative
group of the source. -/
def matchesAny (lower : List Char) (kws : List String) : Bool :=
  kws.any (containsKw lower)

/-- Keyword set of the happy branch of detectMood. -/
def happyKeywords : List String :=
  ["happy", "great", "awesome", "excited", "amazing", "wonderful"]

/-- Keyword set of the sad branch of detectMood. -/
def sadKeywords : List String :=
  ["sad", "depressed", "down", "lonely", "upset"]

/-- Keyword set of the stressed branch of detectMood. -/
def stressedKeywords : List String :=
  ["stress", "anxious", "worried", "overwhelmed", "tired", "drained"]

/-- Keyword set of the excited branch of detectMood. -/
def excitedKeywords : List String :=
  ["excited", "can" ++ apos ++ "t wait", "looking forward", "pumped"]

/-- Keyword set of the code branch of detectMode (main server file). -/
def codeKeywords : List String :=
  ["code", "debug", "error", "function", "component", "api", "bug",
   "programming", "react", "angular", "typescript"]

/-- Keyword set of the research branch of detectMode (main server file). -/
def researchKeywords : List String :=
  ["research", "learn", "explain", "how does", "what is",
   "tell me about", "study", "researching"]

/-- Mood detection: lowercase the text, then test the four keyword
groups in order, first match wins, default neutral. -/
def detectMood (text : String) : Mood :=
  let lower := toLowerChars text
  if matchesAny lower happyKeywords then .happy
  else if matchesAny lower sadKeywords then .sad
  else if matchesAny lower stressedKeywords then .stressed
  else if matchesAny lower excitedKeywords then .excited
  else .neutral

/-- Mode detection: code keywords, then research keywords, else the
current mode or friend when none was passed. -/
def detectMode (text : String) (currentMode : Option Mode) : Mode :=
  let lower := toLowerChars text
  if matchesAny lower codeKeywords then .code
  else if matchesAny lower researchKeywords then .research
  else currentMode.getD .friend

/-- JS trim: strip leading and trailing whitespace. -/
def trimStr (s : String) : String :=
  ⟨((s.data.dropWhile Char.isWhitespace).reverse.dropWhile
      Char.isWhitespace).reverse⟩

/-- JS substring from zero: take the first n characters. -/
def takeStr (s : String) (n : Nat) : String := ⟨s.data.take n⟩

/-- Friend template of the main server getSystemPrompt, with the
detected mood interpolated. -/
def friendPrompt (mood : Mood) : String :=
  "You are D.R.O.S.S (Digital Recovery Optimizer for Soulful Systems), a caring AI companion focused on emotional support and daily wellness. \n\nYour role:\n- Be empathetic and conversational, like a close friend\n- Keep responses concise (2-4 sentences) unless user asks for detail  \n- Detect and respond to the user" ++ apos ++ "s mood sensitively\n- Don" ++ apos ++ "t overwhelm with information - prioritize emotional connection\n- Ask follow-up questions to understand their state better\n\nCurrent detected mood: " ++ mood.str ++ ". Respond accordingly."

/-- Research template of the main server getSystemPrompt. -/
def researchPrompt : String :=
  "You are D.R.O.S.S in Research Mode - a deep-thinking AI that helps explore topics thoroughly.\n\nYour role:\n- Provide detailed, well-structured explanations\n- Break down complex topics into understandable parts\n- Cite reasoning and suggest further areas to explore\n- Be intellectually curious and thorough\n- Ask clarifying questions when needed"

/-- Code template of the main server getSystemPrompt. -/
def codePrompt : String :=
  "You are D.R.O.S.S in Code Mode - a programming assistant helping debug and explain code.\n\nYour role:\n- Help debug errors and explain technical concepts\n- Provide code examples when relevant\n- Ask about the specific technology stack (React, Angular, Node, etc.)\n- Suggest best practices and optimizations\n- Keep explanations clear and actionable"

/-- System prompt of the main (typed) server: record lookup keyed by
the three-valued mode. -/
def getSystemPrompt (mode : Mode) (mood : Mood) : String :=
  match mode with
  | .friend => friendPrompt mood
  | .research => researchPrompt
  | .code => codePrompt

/-- Friend template of the untyped JS server variant, with the mood
string interpolated. -/
def friendPromptJS (mood : String) : String :=
  "You are D.R.O.S.S (Digital Recovery Optimizer for Soulful Systems), a caring AI companion focused on emotional support and daily wellness. \n\nYour role:\n- Be empathetic and conversational, like a close friend\n- Keep responses concise (2-4 sentences) unless user asks for detail\n- Detect and respond to the user" ++ apos ++ "s mood sensitively\n- Don" ++ apos ++ "t overwhelm with information - prioritize emotional connection\n- Ask follow-up questions to understand their state better\n\nCurrent detected mood: " ++ mood ++ ". Respond accordingly."

/-- Research template of the untyped JS server variant. -/
def researchPromptJS : String :=
  "You are D.R.O.S.S in Research Mode - a deep-thinking AI that helps explore topics thoroughly.\n\nYour role:\n- Provide detailed, well-structured explanations\n- Break down complex topics into understandable parts\n- Cite reasoning and suggest further areas to explore\n- Be intellectually curious and thorough\n- Ask clarifying questions when needed"

/-- Code template of the untyped JS server variant. -/
def codePromptJS : String :=
  "You are D.R.O.S.S in Code Mode - a programming assistant helping debug and explain code.\n\nYour role:\n- Help debug errors and explain technical concepts\n- Provide code examples when relevant\n- Ask about the specific technology stack\n- Suggest best practices and optimizations\n- Keep explanations clear and actionable"

/-- Value of the JS property lookup prompts[mode] after the or-else
with the friend template: either one of the record's own string
templates, or a truthy member inherited from Object.prototype, which
the or-else keeps because it is not falsy. -/
inductive JsValue where
  | str (s : String)
  | protoMember (name : String)
deriving DecidableEq, Repr

/-- Property names every plain JS object literal inherits from
Object.prototype; prompts[mode] on any of them yields a truthy
non-template member instead of undefined. -/
def objectPrototypeKeys : List String :=
  ["constructor", "hasOwnProperty", "isPrototypeOf",
   "propertyIsEnumerable", "toLocaleString", "toString", "valueOf",
   "__defineGetter__", "__defineSetter__", "__lookupGetter__",
   "__lookupSetter__", "__proto__"]

/-- System prompt of the untyped JS server variant: the property
lookup prompts[mode] followed by the or-else prompts.friend.  Own
keys yield their template; names inherited from Object.prototype
yield the truthy inherited member, which the or-else keeps; any other
mode string looks up undefined and falls back to the friend
template. -/
def getSystemPromptJS (mode : String) (mood : String) : JsValue :=
  if mode = "friend" then .str (friendPromptJS mood)
  else if mode = "research" then .str researchPromptJS
  else if mode = "code" then .str codePromptJS
  else if mode ∈ objectPrototypeKeys then .protoMember mode
  else .str (friendPromptJS mood)

/-- Conversation row, one per turn, as in the conversations table. -/
structure Message where
  id : Nat
  session_id : String
  role : String
  content : String
  mood : Option String
  mode : Option String
  timestamp : Nat
deriving DecidableEq, Repr

/-- Session row, as in the sessions table. -/
structure Session where
  id : String
  title : String
  created_at : Nat
  updated_at : Nat
deriving DecidableEq, Repr

/-- The sqlite store: both tables plus the autoincrement counter of
the conversations table. -/
structure DB where
  sessions : List Session
  conversations : List Message
  nextId : Nat
deriving DecidableEq, Repr

/-- The store with no rows. -/
def emptyDB : DB := ⟨[], [], 0⟩

/-- INSERT OR IGNORE INTO sessions: append a fresh session row unless
one with the same primary key already exists. -/
def createSession (db : DB) (sessionId title : String) (now : Nat) : DB :=
  if db.sessions.any (fun s => s.id == sessionId) then db
  else { db with sessions := db.sessions ++ [⟨sessionId, title, now, now⟩] }

/-- UPDATE sessions SET updated_at = CURRENT_TIMESTAMP WHERE id = ?. -/
def touchSession (db : DB) (sessionId : String) (now : Nat) : DB :=
  { db with
    sessions := db.sessions.map fun s =>
      if s.id == sessionId then { s with updated_at := now } else s }

/-- INSERT INTO conversations followed by the touchSession side
effect; returns the new store and the lastID of the inserted row. -/
def saveMessage (db : DB) (sessionId role content : String)
    (mood mode : Option String) (now : Nat) : DB × Nat :=
  let row : Message :=
    ⟨db.nextId, sessionId, role, content, mood, mode, now⟩
  let db1 : DB :=
    { db with conversations := db.conversations ++ [row],
              nextId := db.nextId + 1 }
  (touchSession db1 sessionId now, db.nextId)

/-- DELETE FROM sessions WHERE id = ?.  The conversations table
declares ON DELETE CASCADE on its session_id foreign key, but sqlite
keeps foreign-key enforcement off per connection unless PRAGMA
foreign_keys = ON is executed, and this code base never runs that
pragma, so the delete removes only the sessions row and the
conversation rows of the session survive. -/
def deleteSession (db : DB) (sessionId : String) : DB :=
  { db with
    sessions := db.sessions.filter (fun s => !(s.id == sessionId)) }

/-- Sort key of the ORDER BY timestamp clause; the row id is the tie
break, matching the (session_id, timestamp) index scan order. -/
def msgKey (m : Message) : Nat × Nat := (m.timestamp, m.id)

/-- Non-strict lexicographic order on (timestamp, id) keys. -/
def keyLe (p q : Nat × Nat) : Prop :=
  p.1 < q.1 ∨ (p.1 = q.1 ∧ p.2 ≤ q.2)

/-- Strict lexicographic order on (timestamp, id) keys. -/
def keyLt (p q : Nat × Nat) : Prop :=
  p.1 < q.1 ∨ (p.1 = q.1 ∧ p.2 < q.2)

instance keyLe.instDec : ∀ p q, Decidable (keyLe p q) := fun p q =>
  if h1 : p.1 < q.1 then isTrue (Or.inl h1)
  else if h2 : p.1 = q.1 ∧ p.2 ≤ q.2 then isTrue (Or.inr h2)
  else isFalse (fun hc => hc.elim h1 h2)

instance keyLt.instDec : ∀ p q, Decidable (keyLt p q) := fun p q =>
  if h1 : p.1 < q.1 then isTrue (Or.inl h1)
  else if h2 : p.1 = q.1 ∧ p.2 < q.2 then isTrue (Or.inr h2)
  else isFalse (fun hc => hc.elim h1 h2)

/-- Most-recent-first row order: ORDER BY timestamp DESC. -/
def descRel (a b : Message) : Prop := keyLe (msgKey b) (msgKey a)

/-- Oldest-first row order (non-strict). -/
def ascRel (a b : Message) : Prop := keyLe (msgKey a) (msgKey b)

/-- Oldest-first row order, strict. -/
def ascStrict (a b : Message) : Prop := keyLt (msgKey a) (msgKey b)

/-- Most-recent-first row order, strict. -/
def descStrict (a b : Message) : Prop := keyLt (msgKey b) (msgKey a)

instance descRel.instDec : DecidableRel descRel := fun a b =>
  keyLe.instDec (msgKey b) (msgKey a)

instance ascRel.instDec : DecidableRel ascRel := fun a b =>
  keyLe.instDec (msgKey a) (msgKey b)

instance ascStrict.instDec : DecidableRel ascStrict := fun a b =>
  keyLt.instDec (msgKey a) (msgKey b)

instance descStrict.instDec : DecidableRel descStrict := fun a b =>
  keyLt.instDec (msgKey b) (msgKey a)

/-- Rows of one session, in physical insertion order: the WHERE
clause of the history query. -/
def sessionRows (db : DB) (sessionId : String) : List Message :=
  db.conversations.filter (fun m => m.session_id == sessionId)

/-- SELECT ... WHERE session_id = ? ORDER BY timestamp DESC LIMIT ?,
followed by the JS reverse call on the returned rows. -/
def getConversationHistory (db : DB) (sessionId : String)
    (limit : Nat) : List Message :=
  (((sessionRows db sessionId).insertionSort descRel).take limit).reverse

/-- The rows of one session in chronological (oldest-first) order:
the specification order of a history listing. -/
def histAsc (db : DB) (sessionId : String) : List Message :=
  (sessionRows db sessionId).insertionSort ascRel

/-- Store wellformedness: conversation row ids are pairwise distinct,
as the autoincrement primary key guarantees. -/
def WFdb (db : DB) : Prop :=
  db.conversations.Pairwise (fun a b => a.id ≠ b.id)

/-- Outcome of one external generateContent attempt, supplied by the
environment oracle. -/
inductive GenAttempt where
  | ok (text : String)
  | fail (status : Option Nat)

/-- Observable result of generateAIResponse: the returned text, the
number of external calls performed and the sleeps taken between
attempts. -/
structure GenResult where
  text : String
  calls : Nat
  delays : List Nat
deriving DecidableEq, Repr

/-- Rate-limit apology of the catch branch. -/
def rateLimitedReply : String :=
  "I" ++ apos ++ "m getting rate limited. Give me a minute and try again! 🕐"

/-- Bad-request apology of the catch branch. -/
def confusedReply : String :=
  "Something about that message confused me. Can you rephrase it? 🤔"

/-- Generic connection apology of the catch branch. -/
def troubleReply : String :=
  "I" ++ apos ++ "m having trouble connecting right now. Can you try again? 🔄"

/-- The three degraded replies a failed generation can produce. -/
def fallbackReplies : List String :=
  [rateLimitedReply, confusedReply, troubleReply]

/-- Apology text chosen once no retry happens, keyed on the status of
the caught error. -/
def fallbackText (status : Option Nat) : String :=
  if status = some 429 then rateLimitedReply
  else if status = some 400 ∨ status = some 403 then confusedReply
  else troubleReply

/-- Serialization of the trailing history: slice(-6) then one
Role: content line per turn. -/
def historyLines (history : List Message) : List String :=
  (history.drop (history.length - 6)).map fun msg =>
    (if msg.role == "user" then "User" else "D.R.O.S.S") ++ ": " ++ msg.content

/-- JS Array.join with a newline separator. -/
def joinLines : List String → String
  | [] => ""
  | [x] => x
  | x :: xs => x ++ "\n" ++ joinLines xs

/-- The prompt string assembled inside generateAIResponse. -/
def buildPrompt (mode : Mode) (mood : Mood) (history : List Message)
    (message : String) : String :=
  getSystemPrompt mode mood ++ "\n\nPrevious conversation:\n" ++
    joinLines (historyLines history) ++ "\n\nUser (" ++ mood.str ++ "): " ++
    message ++ "\n\nD.R.O.S.S:"

/-- Generation adapter with retry: attempt the external call; on
failure retry while attempts remain and the status is neither 400 nor
403, sleeping 1000 ms before each retry; otherwise return the apology
text.  The oracle maps the attempt index and the prompt sent to the
outcome of that external call. -/
def generateAIResponse (oracle : Nat → String → GenAttempt)
    (message : String) (mood : Mood) (mode : Mode)
    (history : List Message) : Nat → Nat → GenResult
  | retries, k =>
    match oracle k (buildPrompt mode mood history message) with
    | .ok t => ⟨t, 1, []⟩
    | .fail s =>
      match retries with
      | r + 1 =>
        if s ≠ some 400 ∧ s ≠ some 403 then
          let g := generateAIResponse oracle message mood mode history r (k + 1)
          ⟨g.text, g.calls + 1, 1000 :: g.delays⟩
        else ⟨fallbackText s, 1, []⟩
      | 0 => ⟨fallbackText s, 1, []⟩

/-- Body of the chat route request. -/
structure ChatRequest where
  message : Option String
  sessionId : Option String
  mode : Option Mode

/-- Body of the chat route response. -/
structure ChatResponse where
  response : String
  mood : Mood
  mode : Mode
deriving DecidableEq, Repr

/-- HTTP status, response body and store after one chat request. -/
structure ChatOutcome where
  status : Nat
  body : ChatResponse
  db : DB
deriving DecidableEq, Repr

/-- Canned reply of the validation branch. -/
def emptyMessageReply : String :=
  "I didn" ++ apos ++ "t catch that. Can you type something?"

/-- The POST /api/chat handler: validate, create the session if new,
classify, save the user turn, load context, generate, save the
assistant turn, respond. -/
def apiChat (db : DB) (req : ChatRequest)
    (oracle : Nat → String → GenAttempt) (now : Nat) : ChatOutcome :=
  let sessionId := req.sessionId.getD "default"
  match req.message with
  | none =>
    ⟨400, ⟨emptyMessageReply, .neutral, req.mode.getD .friend⟩, db⟩
  | some message =>
    if trimStr message = "" then
      ⟨400, ⟨emptyMessageReply, .neutral, req.mode.getD .friend⟩, db⟩
    else
      let trimmedMessage := trimStr message
      let db1 := createSession db sessionId
        (takeStr trimmedMessage 50 ++ "...") now
      let detectedMood := detectMood trimmedMessage
      let detectedMode := detectMode trimmedMessage req.mode
      let saved1 := saveMessage db1 sessionId "user" trimmedMessage
        (some detectedMood.str) (some detectedMode.str) now
      let db2 := saved1.1
      let history := getConversationHistory db2 sessionId 10
      let g := generateAIResponse oracle trimmedMessage detectedMood
        detectedMode history 2 0
      let saved2 := saveMessage db2 sessionId "assistant" g.text
        (some detectedMood.str) (some detectedMode.str) now
      let db3 := saved2.1
      ⟨200, ⟨g.text, detectedMood, detectedMode⟩, db3⟩

/-! Theorems about the embedding. -/

/-- The chat message of the excited scenario of the specification. -/
def excitedMsg : String := "I" ++ apos ++ "m so excited about this!"

/-- C1 counterexample: on the scenario request the mood field of the
response is happy, not excited, because the keyword excited belongs
to the happy keyword set, which is tested first. -/
theorem chat_excited_scenario_mood_not_excited :
    (apiChat emptyDB ⟨some excitedMsg, some "s1", none⟩
        (fun _ _ => GenAttempt.ok "OK") 0).body.mood = Mood.happy ∧
    Mood.happy ≠ Mood.excited := ⟨rfl, by decide⟩

/-- C1 amended: a POST /api/chat with the scenario body answers with
mood happy (not excited), and exactly two turns, a user one and an
assistant one, are persisted under session s1. -/
theorem chat_excited_scenario (t : String) :
    apiChat emptyDB ⟨some excitedMsg, some "s1", none⟩
        (fun _ _ => GenAttempt.ok t) 0 =
      ⟨200, ⟨t, .happy, .friend⟩,
        ⟨[⟨"s1", excitedMsg ++ "...", 0, 0⟩],
         [⟨0, "s1", "user", excitedMsg, some "happy", some "friend", 0⟩,
          ⟨1, "s1", "assistant", t, some "happy", some "friend", 0⟩],
         2⟩⟩ := rfl

/-- C2 divergence: on a store holding session s1 with one turn,
deleting s1 removes only the sessions row; the turn survives because
the declared cascade is never enabled, and the subsequent history
query still returns that turn instead of the empty history the claim
demands. -/
theorem deleteSession_leaves_turns :
    deleteSession
        ⟨[⟨"s1", "t", 0, 0⟩], [⟨0, "s1", "user", "hi", none, none, 0⟩], 1⟩
        "s1" =
      ⟨[], [⟨0, "s1", "user", "hi", none, none, 0⟩], 1⟩ ∧
    getConversationHistory
        (deleteSession
          ⟨[⟨"s1", "t", 0, 0⟩], [⟨0, "s1", "user", "hi", none, none, 0⟩], 1⟩
          "s1")
        "s1" 50 =
      [⟨0, "s1", "user", "hi", none, none, 0⟩] := ⟨rfl, rfl⟩

/-- C5: session creation is insert-or-ignore, so creating a session
whose id already exists leaves the whole store unchanged; in
particular the existing title is untouched. -/
theorem createSession_idempotent (db : DB) (sid title : String)
    (now : Nat) (h : ∃ s ∈ db.sessions, s.id = sid) :
    createSession db sid title now = db := by
  obtain ⟨s, hs, hid⟩ := h
  have ha : db.sessions.any (fun s => s.id == sid) = true :=
    List.any_eq_true.mpr ⟨s, hs, by simp [hid]⟩
  unfold createSession
  simp [ha]

/-- C5 witness: creating an existing id with a different title is a
no-op on a concrete store. -/
theorem createSession_idempotent_witness :
    createSession ⟨[⟨"a", "t", 0, 0⟩], [], 0⟩ "a" "other" 7 =
      ⟨[⟨"a", "t", 0, 0⟩], [], 0⟩ :=
  createSession_idempotent ⟨[⟨"a", "t", 0, 0⟩], [], 0⟩ "a" "other" 7
    ⟨⟨"a", "t", 0, 0⟩, by simp, rfl⟩

/-- C9 counterexample: the mode string toString lies outside the set
of template keys, yet the lookup returns the inherited prototype
member, not the friend template, so the universal fallback of the
claim is false. -/
theorem getSystemPromptJS_prototype_counterexample :
    getSystemPromptJS "toString" "happy" = JsValue.protoMember "toString" ∧
    getSystemPromptJS "toString" "happy" ≠
      JsValue.str (friendPromptJS "happy") :=
  ⟨rfl, by decide⟩

/-- C9 amended: for every mode string outside the three template keys
that is not a property name inherited from Object.prototype, the
lookup yields undefined and the or-else falls back to the friend
template. -/
theorem getSystemPromptJS_fallback (mode mood : String)
    (h1 : mode ∉ (["friend", "research", "code"] : List String))
    (h2 : mode ∉ objectPrototypeKeys) :
    getSystemPromptJS mode mood = JsValue.str (friendPromptJS mood) := by
  have hA : mode ≠ "friend" := fun h => h1 (by simp [h])
  have hB : mode ≠ "research" := fun h => h1 (by simp [h])
  have hC : mode ≠ "code" := fun h => h1 (by simp [h])
  unfold getSystemPromptJS
  rw [if_neg hA, if_neg hB, if_neg hC, if_neg h2]

/-- C9 witness: a mode string that is neither a template key nor a
prototype property name selects the friend template. -/
theorem getSystemPromptJS_fallback_witness :
    ("banana" ∉ (["friend", "research", "code"] : List String)) ∧
    ("banana" ∉ objectPrototypeKeys) ∧
    getSystemPromptJS "banana" "happy" = JsValue.str (friendPromptJS "happy") :=
  ⟨by decide, by decide,
   getSystemPromptJS_fallback "banana" "happy" (by decide) (by decide)⟩

/-- Helper: the apology text is always one of the three degraded
replies. -/
lemma fallbackText_mem (s : Option Nat) : fallbackText s ∈ fallbackReplies := by
  unfold fallbackText fallbackReplies
  split_ifs <;> simp

/-- C3 counterexample: status 429 lies in the 4xx class, yet the
adapter retries it: with two retries allowed and every attempt
failing with 429, three external calls are performed. -/
theorem retry_on_status_429_counterexample :
    400 ≤ 429 ∧ 429 < 500 ∧
    (generateAIResponse (fun _ _ => GenAttempt.fail (some 429)) "x"
        Mood.neutral Mode.friend [] 2 0).calls = 3 := by decide

/-- C3 amended: the adapter performs at most retries + 1 external
calls, sleeps exactly 1000 ms before every retry, does not retry at
all when the failure status is 400 or 403, and on every other failure
with budget remaining it does retry: it performs exactly one more
external call than the remaining run and prepends one 1000 ms sleep
(so any non-400/403 status, other 4xx such as 429 included, is
retried). -/
theorem generateAIResponse_retry_policy (oracle : Nat → String → GenAttempt)
    (message : String) (mood : Mood) (mode : Mode) (history : List Message) :
    ∀ retries k,
      (generateAIResponse oracle message mood mode history retries k).calls
          ≤ retries + 1 ∧
      (∀ d ∈ (generateAIResponse oracle message mood mode history retries k).delays,
          d = 1000) ∧
      (∀ s, oracle k (buildPrompt mode mood history message) = GenAttempt.fail s →
        s = some 400 ∨ s = some 403 →
        (generateAIResponse oracle message mood mode history retries k).calls = 1) ∧
      (∀ s, oracle k (buildPrompt mode mood history message) = GenAttempt.fail s →
        s ≠ some 400 → s ≠ some 403 → ∀ r0, retries = r0 + 1 →
        (generateAIResponse oracle message mood mode history retries k).calls =
          (generateAIResponse oracle message mood mode history r0 (k + 1)).calls + 1 ∧
        (generateAIResponse oracle message mood mode history retries k).delays =
          1000 :: (generateAIResponse oracle message mood mode history r0 (k + 1)).delays) := by
  intro retries
  induction retries with
  | zero =>
    intro k
    cases ho : oracle k (buildPrompt mode mood history message) with
    | ok t =>
      have he : generateAIResponse oracle message mood mode history 0 k =
          ⟨t, 1, []⟩ := by
        rw [generateAIResponse, ho]
      refine ⟨by simp [he], by simp [he],
        fun s' hs' => GenAttempt.noConfusion hs',
        fun s' hs' => GenAttempt.noConfusion hs'⟩
    | fail s =>
      have he : generateAIResponse oracle message mood mode history 0 k =
          ⟨fallbackText s, 1, []⟩ := by
        rw [generateAIResponse, ho]
      refine ⟨by simp [he], by simp [he], fun s' hs' hin => by simp [he],
        fun s' hs' h4 h3 r0 hr => absurd hr (by omega)⟩
  | succ r ih =>
    intro k
    cases ho : oracle k (buildPrompt mode mood history message) with
    | ok t =>
      have he : generateAIResponse oracle message mood mode history (r + 1) k =
          ⟨t, 1, []⟩ := by
        rw [generateAIResponse, ho]
      refine ⟨by simp [he], by simp [he],
        fun s' hs' => GenAttempt.noConfusion hs',
        fun s' hs' => GenAttempt.noConfusion hs'⟩
    | fail s =>
      by_cases hc : s ≠ some 400 ∧ s ≠ some 403
      · have he : generateAIResponse oracle message mood mode history (r + 1) k =
            ⟨(generateAIResponse oracle message mood mode history r (k + 1)).text,
             (generateAIResponse oracle message mood mode history r (k + 1)).calls + 1,
             1000 :: (generateAIResponse oracle message mood mode history r (k + 1)).delays⟩ := by
          rw [generateAIResponse, ho]
          simp only [if_pos hc]
        refine ⟨?_, ?_, ?_, ?_⟩
        · have h1 := (ih (k + 1)).1
          simp [he]
          omega
        · intro d hd
          rw [he] at hd
          rcases List.mem_cons.mp hd with h | h
          · exact h
          · exact (ih (k + 1)).2.1 d h
        · intro s' hs' hin
          cases hs'
          rcases hin with h | h
          · exact absurd h hc.1
          · exact absurd h hc.2
        · intro s' hs' h4 h3 r0 hr
          cases hs'
          obtain rfl : r0 = r := by omega
          exact ⟨by rw [he], by rw [he]⟩
      · have he : generateAIResponse oracle message mood mode history (r + 1) k =
            ⟨fallbackText s, 1, []⟩ := by
          rw [generateAIResponse, ho]
          simp only [if_neg hc]
        refine ⟨by simp [he], by simp [he], fun s' hs' hin => by simp [he],
          fun s' hs' h4 h3 r0 hr => by
            cases hs'
            exact absurd ⟨h4, h3⟩ hc⟩

/-- C3 witness: a first attempt failing with status 400 causes
exactly one external call, and a first attempt failing with status
500 triggers a retry: one more call than the remaining run, with a
1000 ms sleep prepended. -/
theorem generateAIResponse_retry_policy_witness :
    (generateAIResponse (fun _ _ => GenAttempt.fail (some 400)) "x"
        Mood.neutral Mode.friend [] 2 0).calls = 1 ∧
    (generateAIResponse (fun _ _ => GenAttempt.fail (some 500)) "x"
        Mood.neutral Mode.friend [] 2 0).calls =
      (generateAIResponse (fun _ _ => GenAttempt.fail (some 500)) "x"
          Mood.neutral Mode.friend [] 1 1).calls + 1 ∧
    (generateAIResponse (fun _ _ => GenAttempt.fail (some 500)) "x"
        Mood.neutral Mode.friend [] 2 0).delays =
      1000 :: (generateAIResponse (fun _ _ => GenAttempt.fail (some 500)) "x"
          Mood.neutral Mode.friend [] 1 1).delays :=
  ⟨(generateAIResponse_retry_policy (fun _ _ => GenAttempt.fail (some 400))
      "x" Mood.neutral Mode.friend [] 2 0).2.2.1 (some 400) rfl (Or.inl rfl),
   ((generateAIResponse_retry_policy (fun _ _ => GenAttempt.fail (some 500))
      "x" Mood.neutral Mode.friend [] 2 0).2.2.2 (some 500) rfl
      (by decide) (by decide) 1 rfl).1,
   ((generateAIResponse_retry_policy (fun _ _ => GenAttempt.fail (some 500))
      "x" Mood.neutral Mode.friend [] 2 0).2.2.2 (some 500) rfl
      (by decide) (by decide) 1 rfl).2⟩

/-- Helper: when every external attempt fails, the adapter returns
one of the three degraded replies. -/
lemma generateAIResponse_text_fallback (oracle : Nat → String → GenAttempt)
    (message : String) (mood : Mood) (mode : Mode) (history : List Message)
    (hfail : ∀ k p, ∃ s, oracle k p = GenAttempt.fail s) :
    ∀ retries k,
      (generateAIResponse oracle message mood mode history retries k).text
        ∈ fallbackReplies := by
  intro retries
  induction retries with
  | zero =>
    intro k
    obtain ⟨s, hs⟩ := hfail k (buildPrompt mode mood history message)
    have he : generateAIResponse oracle message mood mode history 0 k =
        ⟨fallbackText s, 1, []⟩ := by
      rw [generateAIResponse, hs]
    rw [he]
    exact fallbackText_mem s
  | succ r ih =>
    intro k
    obtain ⟨s, hs⟩ := hfail k (buildPrompt mode mood history message)
    by_cases hc : s ≠ some 400 ∧ s ≠ some 403
    · have he : generateAIResponse oracle message mood mode history (r + 1) k =
          ⟨(generateAIResponse oracle message mood mode history r (k + 1)).text,
           (generateAIResponse oracle message mood mode history r (k + 1)).calls + 1,
           1000 :: (generateAIResponse oracle message mood mode history r (k + 1)).delays⟩ := by
        rw [generateAIResponse, hs]
        simp only [if_pos hc]
      rw [he]
      exact ih (k + 1)
    · have he : generateAIResponse oracle message mood mode history (r + 1) k =
          ⟨fallbackText s, 1, []⟩ := by
        rw [generateAIResponse, hs]
        simp only [if_neg hc]
      rw [he]
      exact fallbackText_mem s

/-- C6: when the message is valid but every external generation
attempt fails, the chat route still answers with HTTP 200 and its
response text is one of the degraded apology strings. -/
theorem apiChat_absorbs_generation_failure (db : DB) (req : ChatRequest)
    (oracle : Nat → String → GenAttempt) (now : Nat) (m : String)
    (hm : req.message = some m) (ht : trimStr m ≠ "")
    (hfail : ∀ k p, ∃ s, oracle k p = GenAttempt.fail s) :
    (apiChat db req oracle now).status = 200 ∧
    (apiChat db req oracle now).body.response ∈ fallbackReplies := by
  unfold apiChat
  rw [hm]
  dsimp only
  rw [if_neg ht]
  exact ⟨rfl, generateAIResponse_text_fallback oracle _ _ _ _ hfail 2 0⟩

/-- C6 witness: a concrete valid request against an always-failing
provider yields HTTP 200 and a degraded reply. -/
theorem apiChat_absorbs_generation_failure_witness :
    trimStr "hi" ≠ "" ∧
    (apiChat emptyDB ⟨some "hi", none, none⟩
        (fun _ _ => GenAttempt.fail none) 0).status = 200 ∧
    (apiChat emptyDB ⟨some "hi", none, none⟩
        (fun _ _ => GenAttempt.fail none) 0).body.response ∈ fallbackReplies :=
  ⟨by decide,
   apiChat_absorbs_generation_failure emptyDB ⟨some "hi", none, none⟩
     (fun _ _ => GenAttempt.fail none) 0 "hi" rfl (by decide)
     (fun _ _ => ⟨none, rfl⟩)⟩

/-- C7: a POST /api/chat whose message is missing, empty, or
whitespace-only answers HTTP 400 with the canned reply, mood neutral
and the request mode (friend when absent), and leaves the store
unchanged, so no turn is persisted. -/
theorem apiChat_validation (db : DB) (req : ChatRequest)
    (oracle : Nat → String → GenAttempt) (now : Nat)
    (h : req.message = none ∨ ∃ m, req.message = some m ∧ trimStr m = "") :
    apiChat db req oracle now =
      ⟨400, ⟨emptyMessageReply, .neutral, req.mode.getD .friend⟩, db⟩ := by
  rcases h with h | ⟨m, hm, ht⟩
  · unfold apiChat
    rw [h]
  · unfold apiChat
    rw [hm]
    dsimp only
    rw [if_pos ht]

/-- C7 witness: a whitespace-only message with a code mode in the
request yields the 400 canned outcome and an unchanged store. -/
theorem apiChat_validation_witness :
    trimStr "  " = "" ∧
    apiChat emptyDB ⟨some "  ", none, some Mode.code⟩
        (fun _ _ => GenAttempt.ok "x") 5 =
      ⟨400, ⟨emptyMessageReply, .neutral, .code⟩, emptyDB⟩ :=
  ⟨by decide,
   apiChat_validation emptyDB ⟨some "  ", none, some Mode.code⟩
     (fun _ _ => GenAttempt.ok "x") 5 (Or.inr ⟨"  ", rfl, by decide⟩)⟩

/-- Helper: a keyword set none of whose members occurs in the lowered
text does not match. -/
lemma matchesAny_eq_false (lower : List Char) (kws : List String)
    (h : ∀ kw ∈ kws, containsKw lower kw = false) :
    matchesAny lower kws = false := by
  unfold matchesAny
  rw [List.any_eq_false]
  intro kw hkw
  simp [h kw hkw]

/-- C8: a text in which no keyword of any detection set occurs maps
to mood neutral, and its mode is the passed-in current mode, or
friend when no current mode is passed. -/
theorem detect_defaults (text : String)
    (h : ∀ kw ∈ happyKeywords ++ sadKeywords ++ stressedKeywords ++
        excitedKeywords ++ codeKeywords ++ researchKeywords,
        containsKw (toLowerChars text) kw = false) :
    detectMood text = Mood.neutral ∧
    (∀ cm : Mode, detectMode text (some cm) = cm) ∧
    detectMode text none = Mode.friend := by
  have e1 : matchesAny (toLowerChars text) happyKeywords = false :=
    matchesAny_eq_false _ _ (fun kw hkw => h kw (by simp [hkw]))
  have e2 : matchesAny (toLowerChars text) sadKeywords = false :=
    matchesAny_eq_false _ _ (fun kw hkw => h kw (by simp [hkw]))
  have e3 : matchesAny (toLowerChars text) stressedKeywords = false :=
    matchesAny_eq_false _ _ (fun kw hkw => h kw (by simp [hkw]))
  have e4 : matchesAny (toLowerChars text) excitedKeywords = false :=
    matchesAny_eq_false _ _ (fun kw hkw => h kw (by simp [hkw]))
  have e5 : matchesAny (toLowerChars text) codeKeywords = false :=
    matchesAny_eq_false _ _ (fun kw hkw => h kw (by simp [hkw]))
  have e6 : matchesAny (toLowerChars text) researchKeywords = false :=
    matchesAny_eq_false _ _ (fun kw hkw => h kw (by simp [hkw]))
  refine ⟨?_, ?_, ?_⟩
  · unfold detectMood
    simp [e1, e2, e3, e4]
  · intro cm
    unfold detectMode
    simp [e5, e6]
  · unfold detectMode
    simp [e5, e6]

/-- C8 witness: a whitespace-only text matches no keyword, maps to
mood neutral, keeps a passed research mode and defaults to friend. -/
theorem detect_defaults_witness :
    (∀ kw ∈ happyKeywords ++ sadKeywords ++ stressedKeywords ++
        excitedKeywords ++ codeKeywords ++ researchKeywords,
        containsKw (toLowerChars "   ") kw = false) ∧
    detectMood "   " = Mood.neutral ∧
    detectMode "   " (some Mode.research) = Mode.research ∧
    detectMode "   " none = Mode.friend :=
  ⟨by decide,
   (detect_defaults "   " (by decide)).1,
   (detect_defaults "   " (by decide)).2.1 Mode.research,
   (detect_defaults "   " (by decide)).2.2⟩

/-- Helper: creating a session never touches the conversations table. -/
lemma createSession_conversations (db : DB) (sid title : String) (now : Nat) :
    (createSession db sid title now).conversations = db.conversations := by
  unfold createSession
  split <;> rfl

/-- Helper: creating a session never touches the autoincrement counter. -/
lemma createSession_nextId (db : DB) (sid title : String) (now : Nat) :
    (createSession db sid title now).nextId = db.nextId := by
  unfold createSession
  split <;> rfl

/-- Helper: saving a message appends exactly one conversations row,
whose id is the current autoincrement counter. -/
lemma saveMessage_conversations (db : DB) (sid role content : String)
    (mood mode : Option String) (now : Nat) :
    (saveMessage db sid role content mood mode now).1.conversations =
      db.conversations ++ [⟨db.nextId, sid, role, content, mood, mode, now⟩] := rfl

/-- Helper: saving a message advances the autoincrement counter by one. -/
lemma saveMessage_nextId (db : DB) (sid role content : String)
    (mood mode : Option String) (now : Nat) :
    (saveMessage db sid role content mood mode now).1.nextId = db.nextId + 1 := rfl

/-- C10: a valid chat request answers HTTP 200 and appends exactly
two turns, a user one then an assistant one, both carrying the same
mood and mode labels, and those labels are the ones returned in the
response body; the assistant content is the response text. -/
theorem apiChat_label_consistency (db : DB) (req : ChatRequest)
    (oracle : Nat → String → GenAttempt) (now : Nat) (m : String)
    (hm : req.message = some m) (ht : trimStr m ≠ "") :
    (apiChat db req oracle now).status = 200 ∧
    (apiChat db req oracle now).db.conversations =
      db.conversations ++
        [⟨db.nextId, req.sessionId.getD "default", "user", trimStr m,
          some (apiChat db req oracle now).body.mood.str,
          some (apiChat db req oracle now).body.mode.str, now⟩,
         ⟨db.nextId + 1, req.sessionId.getD "default", "assistant",
          (apiChat db req oracle now).body.response,
          some (apiChat db req oracle now).body.mood.str,
          some (apiChat db req oracle now).body.mode.str, now⟩] := by
  unfold apiChat
  rw [hm]
  dsimp only
  rw [if_neg ht]
  refine ⟨rfl, ?_⟩
  rw [saveMessage_conversations, saveMessage_conversations,
      saveMessage_nextId, createSession_conversations, createSession_nextId,
      List.append_assoc]
  rfl

/-- C10 witness: the label consistency holds on a concrete request. -/
theorem apiChat_label_consistency_witness :
    trimStr "hello" ≠ "" ∧
    ((apiChat emptyDB ⟨some "hello", some "w1", none⟩
        (fun _ _ => GenAttempt.ok "yo") 3).status = 200 ∧
     (apiChat emptyDB ⟨some "hello", some "w1", none⟩
        (fun _ _ => GenAttempt.ok "yo") 3).db.conversations =
       [] ++
        [⟨0, "w1", "user", trimStr "hello",
          some (apiChat emptyDB ⟨some "hello", some "w1", none⟩
            (fun _ _ => GenAttempt.ok "yo") 3).body.mood.str,
          some (apiChat emptyDB ⟨some "hello", some "w1", none⟩
            (fun _ _ => GenAttempt.ok "yo") 3).body.mode.str, 3⟩,
         ⟨1, "w1", "assistant",
          (apiChat emptyDB ⟨some "hello", some "w1", none⟩
            (fun _ _ => GenAttempt.ok "yo") 3).body.response,
          some (apiChat emptyDB ⟨some "hello", some "w1", none⟩
            (fun _ _ => GenAttempt.ok "yo") 3).body.mood.str,
          some (apiChat emptyDB ⟨some "hello", some "w1", none⟩
            (fun _ _ => GenAttempt.ok "yo") 3).body.mode.str, 3⟩]) :=
  ⟨by decide,
   apiChat_label_consistency emptyDB ⟨some "hello", some "w1", none⟩
     (fun _ _ => GenAttempt.ok "yo") 3 "hello" rfl (by decide)⟩


instance : IsTotal Message descRel :=
  ⟨by intro a b; dsimp only [descRel, keyLe, msgKey]; omega⟩

instance : IsTrans Message descRel :=
  ⟨by intro a b c hab hbc; dsimp only [descRel, keyLe, msgKey] at *; omega⟩

instance : IsTotal Message ascRel :=
  ⟨by intro a b; dsimp only [ascRel, keyLe, msgKey]; omega⟩

instance : IsTrans Message ascRel :=
  ⟨by intro a b c hab hbc; dsimp only [ascRel, keyLe, msgKey] at *; omega⟩

instance : IsAntisymm Message ascStrict :=
  ⟨by
    intro a b h1 h2
    exfalso
    dsimp only [ascStrict, keyLt, msgKey] at h1 h2
    omega⟩

/-- Helper: a non-strict most-recent-first pair with distinct ids is
strict. -/
lemma descRel_strict {a b : Message} (h1 : descRel a b) (h2 : a.id ≠ b.id) :
    descStrict a b := by
  dsimp only [descRel, descStrict, keyLe, keyLt, msgKey] at *
  omega

/-- Helper: a non-strict oldest-first pair with distinct ids is
strict. -/
lemma ascRel_strict {a b : Message} (h1 : ascRel a b) (h2 : a.id ≠ b.id) :
    ascStrict a b := by
  dsimp only [ascRel, ascStrict, keyLe, keyLt, msgKey] at *
  omega

/-- C4: a history listing returns at most limit turns, they are
strictly ordered oldest-first with id as the tie break on equal
timestamps, and they are exactly the most recent limit turns of the
session: the last limit entries of the chronological order, obtained
by reversing the most-recent-first scan. -/
theorem getConversationHistory_spec (db : DB) (sid : String) (n : Nat)
    (h : WFdb db) :
    (getConversationHistory db sid n).length ≤ n ∧
    (getConversationHistory db sid n).Pairwise ascStrict ∧
    getConversationHistory db sid n =
      (((histAsc db sid).reverse).take n).reverse := by
  have hnd : (sessionRows db sid).Pairwise (fun a b => a.id ≠ b.id) :=
    List.Pairwise.sublist (List.filter_sublist _) h
  have hperm : List.Perm ((sessionRows db sid).insertionSort descRel)
      (sessionRows db sid) :=
    List.perm_insertionSort descRel _
  have hsymm : ∀ {x y : Message}, x.id ≠ y.id → y.id ≠ x.id :=
    fun hxy => Ne.symm hxy
  have hnds : ((sessionRows db sid).insertionSort descRel).Pairwise
      (fun a b => a.id ≠ b.id) :=
    (hperm.pairwise_iff hsymm).mpr hnd
  have hsorted : ((sessionRows db sid).insertionSort descRel).Pairwise descRel :=
    List.sorted_insertionSort descRel _
  have hstrict : ((sessionRows db sid).insertionSort descRel).Pairwise descStrict :=
    (hsorted.and hnds).imp (fun hab => descRel_strict hab.1 hab.2)
  refine ⟨?_, ?_, ?_⟩
  · unfold getConversationHistory
    simp
  · unfold getConversationHistory
    rw [List.pairwise_reverse]
    exact List.Pairwise.sublist (List.take_sublist _ _) hstrict
  · have hpermA : List.Perm ((sessionRows db sid).insertionSort ascRel)
        (((sessionRows db sid).insertionSort descRel).reverse) := by
      refine (List.perm_insertionSort ascRel _).trans ?_
      exact (hperm.symm).trans (List.reverse_perm ((sessionRows db sid).insertionSort descRel)).symm
    have hndA : ((sessionRows db sid).insertionSort ascRel).Pairwise
        (fun a b => a.id ≠ b.id) :=
      ((List.perm_insertionSort ascRel _).pairwise_iff hsymm).mpr hnd
    have hsortedA : ((sessionRows db sid).insertionSort ascRel).Pairwise ascRel :=
      List.sorted_insertionSort ascRel _
    have hstrictA : ((sessionRows db sid).insertionSort ascRel).Pairwise ascStrict :=
      (hsortedA.and hndA).imp (fun hab => ascRel_strict hab.1 hab.2)
    have hstrictR : (((sessionRows db sid).insertionSort descRel).reverse).Pairwise
        ascStrict := by
      rw [List.pairwise_reverse]
      exact hstrict
    have hrev : histAsc db sid =
        ((sessionRows db sid).insertionSort descRel).reverse := by
      exact List.eq_of_perm_of_sorted hpermA hstrictA hstrictR
    unfold getConversationHistory
    rw [hrev, List.reverse_reverse]


instance (db : DB) : Decidable (WFdb db) := by
  unfold WFdb
  infer_instance

/-- Concrete store for the C4 witness: three turns of session s1 with
a timestamp tie, interleaved with a turn of another session. -/
def c4db : DB :=
  ⟨[⟨"s1", "t", 0, 0⟩, ⟨"s2", "t", 0, 0⟩],
   [⟨0, "s1", "user", "a", none, none, 5⟩,
    ⟨1, "s2", "user", "b", none, none, 6⟩,
    ⟨2, "s1", "assistant", "c", none, none, 5⟩,
    ⟨3, "s1", "user", "d", none, none, 9⟩], 4⟩

/-- C4 witness: the history specification holds on the concrete
store with limit two. -/
theorem getConversationHistory_spec_witness :
    WFdb c4db ∧
    ((getConversationHistory c4db "s1" 2).length ≤ 2 ∧
     (getConversationHistory c4db "s1" 2).Pairwise ascStrict ∧
     getConversationHistory c4db "s1" 2 =
       (((histAsc c4db "s1").reverse).take 2).reverse) :=
  ⟨by decide, getConversationHistory_spec c4db "s1" 2 (by decide)⟩
